import Mathlib

/-!
Verification of the keyword-detector subsystem (GPIO / HID / XMOS / Sensory
variants) against its natural-language specification.

The C++ sources are shallowly embedded: machine integers are `ℕ` with explicit
reduction modulo `2 ^ 32` / `2 ^ 64` where overflow matters, payload bytes are
`Fin 256`, and the stateful loops are modelled as recursions over explicit
traces of externally supplied inputs (pin reads, input events, stream-read
results, device responses).  Namespaces group the embedded definitions by the
source file they come from:

* `GPIOKWD`    — `KWD/GPIO/src/GPIOKeywordDetector.cpp` (shared routines also
                 appear verbatim in `KWD/HID/src/HIDKeywordDetector.cpp`);
* `HIDKWD`     — `KWD/HID/src/HIDKeywordDetector.cpp`;
* `XMOSKWD`    — `KWD/XMOS/src/XMOSKeywordDetector.cpp` and
                 `applications/acsdkXMOSAdapter/XMOS/src/XMOSKeywordDetector.cpp`;
* `XMOSGPIOKWD`/`XMOSHIDKWD` — the `KWD/XMOS/GPIO` and `KWD/XMOS/HID` variants;
* `AdapterXMOSKWD` — `applications/acsdkXMOSAdapter/XMOS/src/XMOSKeywordDetector.cpp`;
* `SensoryKWD` — `applications/acsdkSensoryAdapter/src/SensoryKeywordDetector.cpp`.
-/

/-- A byte of a control payload (C `uint8_t`). -/
abbrev Byte := Fin 256

/-- Two's-complement reading of the low 32 bits of a natural number: the value
of a C 32-bit `int` holding the truncation of `n`. -/
def toInt32 (n : ℕ) : ℤ :=
  if n % 2 ^ 32 < 2 ^ 31 then ((n % 2 ^ 32 : ℕ) : ℤ) else ((n % 2 ^ 32 : ℕ) : ℤ) - 2 ^ 32

/-- Conversion of a C `int` value to `uint64_t`: the representative of `x`
modulo `2 ^ 64` (negative values wrap around). -/
def uint64OfInt (x : ℤ) : ℕ := (x % 2 ^ 64).toNat

/-- Subtraction of `uint64_t` values: `a - b` computed modulo `2 ^ 64`. -/
def sub64 (a b : ℕ) : ℕ := (a % 2 ^ 64 + (2 ^ 64 - b % 2 ^ 64)) % 2 ^ 64

namespace GPIOKWD

/-- `readIndex` of `KWD/GPIO/src/GPIOKeywordDetector.cpp` (the identical
function also appears in `KWD/HID/src/HIDKeywordDetector.cpp`): the manual
big-endian byte-shift decoder

    uint64_t value = 0;
    for (int i = start_index; i < 8 + start_index; i++)
        value += payload[i] << ((8 - (i - start_index) - 1) * 8);

`payload[i]` is a `uint8_t` promoted to the 32-bit `int` before the shift, so
the shift is modelled as multiplication by `2 ^ shift` truncated to 32 bits
(two's complement, `toInt32`); the addition into the `uint64_t` accumulator
converts that `int` value via `uint64OfInt` and wraps modulo `2 ^ 64`. -/
def readIndex (payload : ℕ → Byte) (start_index : ℕ) : ℕ :=
  (List.range 8).foldl
    (fun value j =>
      (value + uint64OfInt (toInt32 ((payload (start_index + j) : ℕ) * 2 ^ ((8 - j - 1) * 8))))
        % 2 ^ 64)
    0

/-- wiringPi `HIGH`. -/
def HIGH : ℕ := 1

/-- wiringPi `LOW`. -/
def LOW : ℕ := 0

/-- The trigger test of `GPIOKeywordDetector::detectionLoop` (line 289, and
line 175 of the `KWD/XMOS/GPIO` variant):
`gpioValue == LOW && oldGpioValue == HIGH`. -/
def gpioFires (gpioValue oldGpioValue : ℕ) : Bool :=
  gpioValue == LOW && oldGpioValue == HIGH

/-- Number of trigger firings of `GPIOKeywordDetector::detectionLoop` over a
list of successive `digitalRead(GPIO_PIN)` values, starting from a given
`oldGpioValue` loop state; after each read, `oldGpioValue = gpioValue`
(line 365). -/
def fireCountFrom (oldGpioValue : ℕ) : List ℕ → ℕ
  | [] => 0
  | gpioValue :: rest =>
      (if gpioFires gpioValue oldGpioValue then 1 else 0) + fireCountFrom gpioValue rest

/-- Firing count of the detection loop from its start:
`int oldGpioValue = HIGH;` (line 277). -/
def fireCount (reads : List ℕ) : ℕ := fireCountFrom HIGH reads

end GPIOKWD

namespace XMOSKWD

/-- The `memcpy(&u64value, &payload[start_index], sizeof(uint64_t))` step of
`readIndex` in `KWD/XMOS/src/XMOSKeywordDetector.cpp`: on the little-endian
host the byte at offset `k` becomes the `k`-th least significant byte. -/
def memcpyLE (payload : ℕ → Byte) (start_index : ℕ) : ℕ :=
  (List.range 8).foldl (fun acc k => acc + (payload (start_index + k) : ℕ) * 2 ^ (8 * k)) 0

/-- `__bswap_64`: reverse the eight bytes of a 64-bit value. -/
def bswap64 (x : ℕ) : ℕ :=
  (List.range 8).foldl (fun acc k => acc + x / 2 ^ (8 * k) % 2 ^ 8 * 2 ^ (8 * (7 - k))) 0

/-- `readIndex` of `KWD/XMOS/src/XMOSKeywordDetector.cpp` (identical to
`XMOSKeywordDetector::readIndex` of
`applications/acsdkXMOSAdapter/XMOS/src/XMOSKeywordDetector.cpp`): copy the
eight payload bytes into a `uint64_t` and swap its byte order. -/
def readIndex (payload : ℕ → Byte) (start_index : ℕ) : ℕ :=
  bswap64 (memcpyLE payload start_index)

end XMOSKWD

/-- The index-translation expression of the detection loops
(`KWD/GPIO` line 350, `KWD/HID` line 352, `KWD/XMOS/GPIO` line 236,
`KWD/XMOS/HID` line 241):
`auto begin_server_index = current_index - (current_device_index - begin_device_index);`
with all three operands of type `uint64_t`. -/
def begin_server_index (current_index current_device_index begin_device_index : ℕ) : ℕ :=
  sub64 current_index (sub64 current_device_index begin_device_index)

/-- File-scope keyword constant `KEYWORD_STRING`. -/
def KEYWORD_STRING : String := "alexa"

/-- File-scope trigger key constant `HID_KEY_CODE`. -/
def HID_KEY_CODE : String := "KEY_T"

/-- A HID input event as the detection loops inspect it: the names that
`libevdev_event_type_get_name(ev.type)` and
`libevdev_event_code_get_name(ev.type, ev.code)` resolve to, and `ev.value`. -/
structure InputEvent where
  typeName : String
  codeName : String
  value : Int
deriving DecidableEq

/-- One `notifyKeyWordObservers(m_stream, keyword, beginIndex, endIndex)` call. -/
structure Notification where
  keyword : String
  beginIndex : ℕ
  endIndex : ℕ
deriving DecidableEq

namespace HIDKWD

/-- The trigger condition of `HIDKeywordDetector::detectionLoop`
(`KWD/HID` lines 313-315, `KWD/XMOS/HID` lines 204-206):
`rc == 0 && strcmp(type name, "EV_KEY") == 0 && strcmp(code name, HID_KEY_CODE) == 0
&& ev.value == 1`. -/
def eventFires (rc : Int) (ev : InputEvent) : Bool :=
  rc == 0 && ev.typeName == "EV_KEY" && ev.codeName == HID_KEY_CODE && ev.value == 1

/-- One iteration of `HIDKeywordDetector::detectionLoop` (`KWD/HID` lines
308-368).  `tellLoopTop` is the `m_streamReader->tell()` sampled at the top of
the loop (line 309); on a firing event the code re-samples
`current_index = m_streamReader->tell()` (line 317), modelled by
`tellAtTrigger`.  The payload is the response accepted by the status-retry
loop; indices are decoded with the manual byte-shift `readIndex` and the
notification `(KEYWORD_STRING, begin_server_index, current_index)` is
published.  `tellLoopTop` is dead in this variant (hence the underscore): it is
overwritten before any use on the firing path. -/
def detectionIteration (_tellLoopTop tellAtTrigger : ℕ) (rc : Int) (ev : InputEvent)
    (payload : ℕ → Byte) : Option Notification :=
  if eventFires rc ev then
    let current_index := tellAtTrigger
    let current_device_index := GPIOKWD.readIndex payload 1
    let begin_device_index := GPIOKWD.readIndex payload 9
    some { keyword := KEYWORD_STRING,
           beginIndex := begin_server_index current_index current_device_index begin_device_index,
           endIndex := current_index }
  else none

end HIDKWD

namespace XMOSHIDKWD

/-- One iteration of `HIDKeywordDetector::detectionLoop` of the `KWD/XMOS/HID`
variant (lines 198-257): `currentIndex` is sampled once, at the top of the loop
(line 199), and is not re-sampled inside the firing branch; indices are decoded
with the copy-and-byteswap `readIndex` inherited from `XMOSKeywordDetector`. -/
def detectionIteration (tellLoopTop : ℕ) (rc : Int) (ev : InputEvent)
    (payload : ℕ → Byte) : Option Notification :=
  if HIDKWD.eventFires rc ev then
    let currentIndex := tellLoopTop
    let currentDeviceIndex := XMOSKWD.readIndex payload 1
    let beginKWDeviceIndex := XMOSKWD.readIndex payload 9
    some { keyword := KEYWORD_STRING,
           beginIndex := begin_server_index currentIndex currentDeviceIndex beginKWDeviceIndex,
           endIndex := currentIndex }
  else none

end XMOSHIDKWD

/-- `avsCommon::utils::AudioFormat::Encoding`. -/
inductive Encoding where
  | LPCM
  | OPUS
deriving DecidableEq

/-- `avsCommon::utils::AudioFormat::Endianness`. -/
inductive Endianness where
  | LITTLE
  | BIG
deriving DecidableEq

/-- The fields of `avsCommon::utils::AudioFormat` inspected by the detectors. -/
structure AudioFormat where
  encoding : Encoding
  endianness : Endianness
  sampleRateHz : ℕ
  sampleSizeInBits : ℕ
  numChannels : ℕ
deriving DecidableEq

/-- Modelled from the spec: `AbstractKeywordDetector::isByteswappingRequired`
is not under src/ (only its callers are).  Per the spec, creation fails when
the "audioFormat requires byte-swapping relative to host endianness", and the
host (and the required format) is little-endian, so byte swapping is required
exactly when the stream's endianness is not little-endian. -/
def isByteswappingRequired (audioFormat : AudioFormat) : Bool :=
  audioFormat.endianness != Endianness.LITTLE

/-- The audio format tuple accepted by the compatibility checks:
{LPCM, little-endian, 16000 Hz, 16 bits, 1 channel}. -/
def compatibleAudioFormat : AudioFormat :=
  ⟨Encoding.LPCM, Endianness.LITTLE, 16000, 16, 1⟩

/-- Result of one `readFromStream` call, as the spec describes the reader:
`read(buffer, count, timeout) -> {samplesRead | Overrun | Timeout | Error}`. -/
inductive ReadResult where
  | ok
  | overrun
  | timedout
  | error
deriving DecidableEq

/-- Modelled from the spec: `AbstractKeywordDetector::readFromStream` is not
under src/.  Per the spec it reports `*didErrorOccur = true` exactly on an
unrecoverable stream error (overrun and timeout are recoverable and handled
internally). -/
def didErrorOccur : ReadResult → Bool
  | ReadResult.error => true
  | _ => false

namespace GPIOKWD

/-- `isAudioFormatCompatibleWithGPIOKW` (`KWD/GPIO` lines 142-179): the cascade
of five field checks against the `GPIO_COMPATIBLE_*` constants. -/
def isAudioFormatCompatibleWithGPIOKW (audioFormat : AudioFormat) : Bool :=
  if Encoding.LPCM ≠ audioFormat.encoding then false
  else if Endianness.LITTLE ≠ audioFormat.endianness then false
  else if 16000 ≠ audioFormat.sampleRateHz then false
  else if 16 ≠ audioFormat.sampleSizeInBits then false
  else if 1 ≠ audioFormat.numChannels then false
  else true

/-- `GPIOKeywordDetector::create` (`KWD/GPIO` lines 181-212), reduced to
whether a (non-null) detector is returned.  `streamPresent` models
`stream != nullptr` and `initSucceeds` the outcome of `detector->init()`
(hardware/driver setup). -/
def create (streamPresent : Bool) (audioFormat : AudioFormat) (initSucceeds : Bool) : Bool :=
  if !streamPresent then false
  else if isByteswappingRequired audioFormat then false
  else if !isAudioFormatCompatibleWithGPIOKW audioFormat then false
  else initSucceeds

/-- `GPIOKeywordDetector::readAudioLoop` (`KWD/GPIO` lines 258-271), run over a
trace of `readFromStream` outcomes: the loop polls `m_isShuttingDown`, issues
the read, and ignores `didErrorOccur`; the returned value is the final state of
`m_isShuttingDown` (never written by this loop).  The identical loop appears in
`KWD/HID` lines 287-299. -/
def readAudioLoop (m_isShuttingDown : Bool) : List ReadResult → Bool
  | [] => m_isShuttingDown
  | _ :: rest =>
      if m_isShuttingDown then m_isShuttingDown
      else readAudioLoop m_isShuttingDown rest

end GPIOKWD

namespace HIDKWD

/-- `isAudioFormatCompatibleWithHIDKW` (`KWD/HID` lines 178-215): same cascade
as the GPIO variant, against the `HID_COMPATIBLE_*` constants. -/
def isAudioFormatCompatibleWithHIDKW (audioFormat : AudioFormat) : Bool :=
  if Encoding.LPCM ≠ audioFormat.encoding then false
  else if Endianness.LITTLE ≠ audioFormat.endianness then false
  else if 16000 ≠ audioFormat.sampleRateHz then false
  else if 16 ≠ audioFormat.sampleSizeInBits then false
  else if 1 ≠ audioFormat.numChannels then false
  else true

/-- `HIDKeywordDetector::create` (`KWD/HID` lines 217-248). -/
def create (streamPresent : Bool) (audioFormat : AudioFormat) (initSucceeds : Bool) : Bool :=
  if !streamPresent then false
  else if isByteswappingRequired audioFormat then false
  else if !isAudioFormatCompatibleWithHIDKW audioFormat then false
  else initSucceeds

end HIDKWD

namespace SensoryKWD

/-- `isAudioFormatCompatibleWithSensory`
(`acsdkSensoryAdapter/src/SensoryKeywordDetector.cpp` lines 67-104). -/
def isAudioFormatCompatibleWithSensory (audioFormat : AudioFormat) : Bool :=
  if Encoding.LPCM ≠ audioFormat.encoding then false
  else if Endianness.LITTLE ≠ audioFormat.endianness then false
  else if 16000 ≠ audioFormat.sampleRateHz then false
  else if 16 ≠ audioFormat.sampleSizeInBits then false
  else if 1 ≠ audioFormat.numChannels then false
  else true

/-- `SensoryKeywordDetector::create` (notifier overload, lines 178-209). -/
def create (streamPresent : Bool) (audioFormat : AudioFormat) (initSucceeds : Bool) : Bool :=
  if !streamPresent then false
  else if isByteswappingRequired audioFormat then false
  else if !isAudioFormatCompatibleWithSensory audioFormat then false
  else initSucceeds

end SensoryKWD

namespace XMOSGPIOKWD

/-- `GPIOKeywordDetector::create` of the `KWD/XMOS/GPIO` variant (lines
102-129): it checks the stream and `isByteswappingRequired` but performs no
audio-format-compatibility check before constructing the detector. -/
def create (streamPresent : Bool) (audioFormat : AudioFormat) (initSucceeds : Bool) : Bool :=
  if !streamPresent then false
  else if isByteswappingRequired audioFormat then false
  else initSucceeds

end XMOSGPIOKWD

namespace XMOSHIDKWD

/-- `HIDKeywordDetector::create` of the `KWD/XMOS/HID` variant (lines 141-168):
like the `KWD/XMOS/GPIO` variant it performs no audio-format-compatibility
check. -/
def create (streamPresent : Bool) (audioFormat : AudioFormat) (initSucceeds : Bool) : Bool :=
  if !streamPresent then false
  else if isByteswappingRequired audioFormat then false
  else initSucceeds

end XMOSHIDKWD

/-- The status-byte retry loop of the detection loops (`KWD/GPIO` lines
303-342, `KWD/HID` lines 331-340): `cmd_ret` starts nonzero, each iteration
performs one write-then-read transaction and sets `cmd_ret = payload[0]`, and
the loop runs again whenever `cmd_ret != 0`.  The list holds the successive
device responses, one consumed per transaction; the result is the accepted
payload, or `none` when no response in the (finite) trace has status 0 — the
code would still be retrying at the end of such a trace. -/
def controlRetryLoop : List (ℕ → Byte) → Option (ℕ → Byte)
  | [] => none
  | payload :: rest => if payload 0 = 0 then some payload else controlRetryLoop rest

namespace AdapterXMOSKWD

/-- `XMOSKeywordDetector::readAudioLoop` of
`applications/acsdkXMOSAdapter/XMOS/src/XMOSKeywordDetector.cpp` (lines
69-85), run over a trace of `readFromStream` outcomes: after each read,
`if (didErrorOccur) m_isShuttingDown = true;`.  Returns the final state of
`m_isShuttingDown`. -/
def readAudioLoop (m_isShuttingDown : Bool) : List ReadResult → Bool
  | [] => m_isShuttingDown
  | r :: rest =>
      if m_isShuttingDown then m_isShuttingDown
      else readAudioLoop (if didErrorOccur r then true else m_isShuttingDown) rest

end AdapterXMOSKWD

/-- The value of `(double)n` for a `uint64_t` `n`: IEEE-754 binary64 rounds to
53 significant bits, to nearest, ties to even.  Every input and output here is
an integer, so the conversion is expressed on `ℕ`: values below `2 ^ 53` are
exact; otherwise the value is rounded to a multiple of the unit in the last
place `2 ^ k`, where `52 + k` is the position of the leading bit (computed by a
bounded scan, the inputs being 64-bit).  Converting the (integer-valued) sum
back to `uint64_t` at the notifier boundary is the identity while the result
is below `2 ^ 64` (above that the C++ back-conversion is undefined; the
mathematical value is returned here). -/
def roundUInt64ToDouble (n : ℕ) : ℕ :=
  if n < 2 ^ 53 then n
  else
    let k := (List.range 64).foldl (fun acc j => if 2 ^ j ≤ n then j else acc) 0 - 52
    let q := n / 2 ^ k
    let r := n % 2 ^ k
    let half := 2 ^ (k - 1)
    let q2 := if r < half then q else if half < r then q + 1 else if q % 2 = 0 then q else q + 1
    q2 * 2 ^ k

namespace SensoryKWD

/-- `SensoryKeywordDetector::keyWordDetectedCallback` (lines 107-144): the
calls retrieving `keyword`, `begin` and `end` from the engine are commented
out, so the locals keep their initial values `""`, `0` and `0`.  The published
indices are `m_beginIndexOfStreamReader + begin` and
`m_beginIndexOfStreamReader + end`: `begin` and `end` are `double`s, so the
`uint64_t` anchor is first converted to `double` (`roundUInt64ToDouble`, which
rounds anchors above `2 ^ 53`), the addition of the constant `0.0` is exact,
and the sum is converted back to a stream index at the
`notifyKeyWordObservers` boundary. -/
def keyWordDetectedCallback (m_beginIndexOfStreamReader : ℕ) : Notification :=
  let keyword := ""
  let beginSample := 0
  let endSample := 0
  { keyword := keyword,
    beginIndex := roundUInt64ToDouble m_beginIndexOfStreamReader + beginSample,
    endIndex := roundUInt64ToDouble m_beginIndexOfStreamReader + endSample }

end SensoryKWD

/-- One step of `SensoryKeywordDetector::detectionLoop` (lines 250-283) as seen
from the anchor `m_beginIndexOfStreamReader`: a successful read, a reader
overrun (carrying the `m_streamReader->tell()` value observed after the base
class recovered the reader), an unrecoverable error, or an engine
keyword-detection callback firing between reads. -/
inductive SensoryEvent where
  | readOk
  | overrun (tellAfter : ℕ)
  | fatalError
  | detect
deriving DecidableEq

namespace SensoryKWD

/-- `SensoryKeywordDetector::detectionLoop` (lines 250-283) over a trace of
events, collecting the notifications published by the callback.  On overrun
the loop re-anchors: `m_beginIndexOfStreamReader = m_streamReader->tell();`
(line 275); on `didErrorOccur` it breaks (line 269). -/
def detectionRun (m_beginIndexOfStreamReader : ℕ) : List SensoryEvent → List Notification
  | [] => []
  | SensoryEvent.readOk :: rest => detectionRun m_beginIndexOfStreamReader rest
  | SensoryEvent.overrun tellAfter :: rest => detectionRun tellAfter rest
  | SensoryEvent.fatalError :: _ => []
  | SensoryEvent.detect :: rest =>
      keyWordDetectedCallback m_beginIndexOfStreamReader
        :: detectionRun m_beginIndexOfStreamReader rest

end SensoryKWD

/-- Concrete payload refuting claim C1: the byte at offset 1 (the most
significant byte of the field starting at offset 1) is 1, all others 0. -/
def cePayload : ℕ → Byte := fun i => if i = 1 then 1 else 0

/-- Concrete payload for the C1 witness: the byte at offset 8 (the least
significant byte of the field starting at offset 1) is 5, all others 0. -/
def c1wPayload : ℕ → Byte := fun i => if i = 8 then 5 else 0

/-- Concrete firing input event for the C2 witness. -/
def wEvent : InputEvent := ⟨"EV_KEY", "KEY_T", 1⟩

/-- Concrete control payload for the C2 witness: deviceCurrentIndex = 3
(least significant byte of the field at offset 1, i.e. offset 8) and
deviceBeginIndex = 1 (offset 16). -/
def wPayload : ℕ → Byte := fun i => if i = 8 then 3 else if i = 16 then 1 else 0

/-- The notification published for `wPayload` at host cursor 100:
begin = 100 - (3 - 1) = 98, end = 100. -/
def wNotification : Notification := ⟨KEYWORD_STRING, 98, 100⟩

/-- An otherwise compatible audio format with an 8000 Hz sample rate. -/
def fmt8000 : AudioFormat := ⟨Encoding.LPCM, Endianness.LITTLE, 8000, 16, 1⟩

/-- A device response with nonzero status byte (busy). -/
def wBusyResponse : ℕ → Byte := fun _ => 1

/-- A device response with status byte 0 (success). -/
def wGoodResponse : ℕ → Byte := fun _ => 0

/-! ## Helper lemmas -/

/-- A C `int` holding a value below `2 ^ 31` converts back to the same value
as a `uint64_t`. -/
theorem uint64OfInt_toInt32_small (n : ℕ) (h : n < 2 ^ 31) : uint64OfInt (toInt32 n) = n := by
  unfold toInt32 uint64OfInt
  split <;> omega

/-- A multiple of `2 ^ 32` truncates to the `int` value 0, hence contributes 0
to the `uint64_t` accumulator. -/
theorem uint64OfInt_toInt32_dvd (n : ℕ) (h : 2 ^ 32 ∣ n) : uint64OfInt (toInt32 n) = 0 := by
  unfold toInt32 uint64OfInt
  split <;> omega

/-- Closed form of `XMOSKWD.memcpyLE`: the little-endian value of the eight
field bytes. -/
theorem memcpyLE_eq (payload : ℕ → Byte) (s : ℕ) :
    XMOSKWD.memcpyLE payload s =
      (payload (s + 0) : ℕ) + (payload (s + 1) : ℕ) * 2 ^ 8 +
      (payload (s + 2) : ℕ) * 2 ^ 16 + (payload (s + 3) : ℕ) * 2 ^ 24 +
      (payload (s + 4) : ℕ) * 2 ^ 32 + (payload (s + 5) : ℕ) * 2 ^ 40 +
      (payload (s + 6) : ℕ) * 2 ^ 48 + (payload (s + 7) : ℕ) * 2 ^ 56 := by
  simp only [XMOSKWD.memcpyLE, show List.range 8 = [0, 1, 2, 3, 4, 5, 6, 7] from rfl,
    List.foldl_cons, List.foldl_nil]
  norm_num [Nat.pow_succ]

/-- Closed form of `XMOSKWD.bswap64` as byte extraction and reassembly. -/
theorem bswap64_eq (x : ℕ) :
    XMOSKWD.bswap64 x =
      x % 2 ^ 8 * 2 ^ 56 + x / 2 ^ 8 % 2 ^ 8 * 2 ^ 48 + x / 2 ^ 16 % 2 ^ 8 * 2 ^ 40 +
      x / 2 ^ 24 % 2 ^ 8 * 2 ^ 32 + x / 2 ^ 32 % 2 ^ 8 * 2 ^ 24 + x / 2 ^ 40 % 2 ^ 8 * 2 ^ 16 +
      x / 2 ^ 48 % 2 ^ 8 * 2 ^ 8 + x / 2 ^ 56 % 2 ^ 8 := by
  simp only [XMOSKWD.bswap64, show List.range 8 = [0, 1, 2, 3, 4, 5, 6, 7] from rfl,
    List.foldl_cons, List.foldl_nil]
  norm_num [Nat.pow_succ]

/-- The copy-then-byteswap decoder returns the big-endian value of the eight
field bytes. -/
theorem readIndex_swap_eq (payload : ℕ → Byte) (s : ℕ) :
    XMOSKWD.readIndex payload s =
      (payload (s + 0) : ℕ) * 2 ^ 56 + (payload (s + 1) : ℕ) * 2 ^ 48 +
      (payload (s + 2) : ℕ) * 2 ^ 40 + (payload (s + 3) : ℕ) * 2 ^ 32 +
      (payload (s + 4) : ℕ) * 2 ^ 24 + (payload (s + 5) : ℕ) * 2 ^ 16 +
      (payload (s + 6) : ℕ) * 2 ^ 8 + (payload (s + 7) : ℕ) := by
  have h0 := (payload (s + 0)).isLt
  have h1 := (payload (s + 1)).isLt
  have h2 := (payload (s + 2)).isLt
  have h3 := (payload (s + 3)).isLt
  have h4 := (payload (s + 4)).isLt
  have h5 := (payload (s + 5)).isLt
  have h6 := (payload (s + 6)).isLt
  have h7 := (payload (s + 7)).isLt
  rw [XMOSKWD.readIndex, bswap64_eq, memcpyLE_eq]
  omega

/-- The manual byte-shift decoder only retains the low four field bytes: the
shifts of the four leading bytes are 56, 48, 40 and 32 bits on a 32-bit `int`,
truncating each contribution to 0.  Requires the fifth byte below 128 so the
24-bit shift does not reach the `int` sign bit. -/
theorem readIndex_manual_low (payload : ℕ → Byte) (s : ℕ)
    (h4 : (payload (s + 4) : ℕ) < 128) :
    GPIOKWD.readIndex payload s =
      (payload (s + 4) : ℕ) * 2 ^ 24 + (payload (s + 5) : ℕ) * 2 ^ 16 +
      (payload (s + 6) : ℕ) * 2 ^ 8 + (payload (s + 7) : ℕ) := by
  have h5 := (payload (s + 5)).isLt
  have h6 := (payload (s + 6)).isLt
  have h7 := (payload (s + 7)).isLt
  simp only [GPIOKWD.readIndex, show List.range 8 = [0, 1, 2, 3, 4, 5, 6, 7] from rfl,
    List.foldl_cons, List.foldl_nil]
  rw [uint64OfInt_toInt32_dvd ((payload (s + 0) : ℕ) * 2 ^ ((8 - 0 - 1) * 8))
        ((show (2 : ℕ) ^ 32 ∣ 2 ^ ((8 - 0 - 1) * 8) by norm_num).mul_left _),
      uint64OfInt_toInt32_dvd ((payload (s + 1) : ℕ) * 2 ^ ((8 - 1 - 1) * 8))
        ((show (2 : ℕ) ^ 32 ∣ 2 ^ ((8 - 1 - 1) * 8) by norm_num).mul_left _),
      uint64OfInt_toInt32_dvd ((payload (s + 2) : ℕ) * 2 ^ ((8 - 2 - 1) * 8))
        ((show (2 : ℕ) ^ 32 ∣ 2 ^ ((8 - 2 - 1) * 8) by norm_num).mul_left _),
      uint64OfInt_toInt32_dvd ((payload (s + 3) : ℕ) * 2 ^ ((8 - 3 - 1) * 8))
        ((show (2 : ℕ) ^ 32 ∣ 2 ^ ((8 - 3 - 1) * 8) by norm_num).mul_left _),
      uint64OfInt_toInt32_small ((payload (s + 4) : ℕ) * 2 ^ ((8 - 4 - 1) * 8))
        (by norm_num; omega),
      uint64OfInt_toInt32_small ((payload (s + 5) : ℕ) * 2 ^ ((8 - 5 - 1) * 8))
        (by norm_num; omega),
      uint64OfInt_toInt32_small ((payload (s + 6) : ℕ) * 2 ^ ((8 - 6 - 1) * 8))
        (by norm_num; omega),
      uint64OfInt_toInt32_small ((payload (s + 7) : ℕ) * 2 ^ ((8 - 7 - 1) * 8))
        (by norm_num; omega)]
  norm_num
  omega

/-! ## C1 — manual byte-shift decoder vs copy-then-byteswap decoder -/

/-- C1, counterexample: the two decodings are not numerically identical for
every payload.  For the payload whose field (start offset 1) has leading byte
1 and all other bytes 0, the copy+swap decoder returns `2 ^ 56` while the
manual byte-shift decoder — whose shift of the leading byte is 56 bits on a
32-bit `int` — returns 0. -/
theorem C1_counterexample : GPIOKWD.readIndex cePayload 1 ≠ XMOSKWD.readIndex cePayload 1 := by
  decide

/-- C1, amended: the two decoders agree on every field whose big-endian value
fits below `2 ^ 31` (four leading bytes 0, fifth byte below 128) — the byte
shifts of the manual decoder are truncated to the 32-bit `int` width, and such
fields are unaffected by the truncation.  (The condition is sufficient, not
necessary: the decoders can also coincide on some larger values, e.g. when the
sign extension of the wrapped fifth-byte contribution happens to reproduce
all-ones leading bytes.) -/
theorem C1_readIndex_agree_below_2_31 :
    ∀ (payload : ℕ → Byte) (start_index : ℕ),
      XMOSKWD.readIndex payload start_index < 2 ^ 31 →
      GPIOKWD.readIndex payload start_index = XMOSKWD.readIndex payload start_index := by
  intro payload s h
  have h0 := (payload (s + 0)).isLt
  have h1 := (payload (s + 1)).isLt
  have h2 := (payload (s + 2)).isLt
  have h3 := (payload (s + 3)).isLt
  have h5 := (payload (s + 5)).isLt
  have h6 := (payload (s + 6)).isLt
  have h7 := (payload (s + 7)).isLt
  rw [readIndex_swap_eq] at h ⊢
  have h4 : (payload (s + 4) : ℕ) < 128 := by omega
  rw [readIndex_manual_low payload s h4]
  omega

/-- C1, witness: for the field (start offset 1) encoding the value 5, both
decoders return 5. -/
theorem C1_witness :
    XMOSKWD.readIndex c1wPayload 1 < 2 ^ 31 ∧
      GPIOKWD.readIndex c1wPayload 1 = XMOSKWD.readIndex c1wPayload 1 :=
  ⟨by decide, C1_readIndex_agree_below_2_31 c1wPayload 1 (by decide)⟩

/-! ## C2 — published host indices -/

/-- C2: on every trigger, both HID detection-loop variants publish
`hostEndIndex` equal to the reader `tell()` value sampled in the triggering
iteration (re-sampled after the event in `KWD/HID`, sampled at the loop top in
`KWD/XMOS/HID`) and `hostBeginIndex` equal to that value minus
(deviceCurrentIndex - deviceBeginIndex) as decoded from the control payload
(offsets 1 and 9), in `uint64_t` arithmetic. -/
theorem C2_published_indices :
    ∀ (tellLoopTop tellAtTrigger : ℕ) (rc : Int) (ev : InputEvent)
      (payload : ℕ → Byte) (n : Notification),
      (HIDKWD.detectionIteration tellLoopTop tellAtTrigger rc ev payload = some n →
        n.endIndex = tellAtTrigger ∧
        n.beginIndex =
          sub64 tellAtTrigger
            (sub64 (GPIOKWD.readIndex payload 1) (GPIOKWD.readIndex payload 9))) ∧
      (XMOSHIDKWD.detectionIteration tellLoopTop rc ev payload = some n →
        n.endIndex = tellLoopTop ∧
        n.beginIndex =
          sub64 tellLoopTop
            (sub64 (XMOSKWD.readIndex payload 1) (XMOSKWD.readIndex payload 9))) := by
  intro t1 t2 rc ev payload n
  constructor
  · intro h
    rw [HIDKWD.detectionIteration] at h
    split at h
    · cases h
      exact ⟨rfl, rfl⟩
    · cases h
  · intro h
    rw [XMOSHIDKWD.detectionIteration] at h
    split at h
    · cases h
      exact ⟨rfl, rfl⟩
    · cases h

/-- C2, witness: with host cursor 100 and a payload encoding
deviceCurrentIndex = 3, deviceBeginIndex = 1, both variants publish
end = 100 and begin = 100 - (3 - 1). -/
theorem C2_witness :
    (wNotification.endIndex = 100 ∧
      wNotification.beginIndex =
        sub64 100 (sub64 (GPIOKWD.readIndex wPayload 1) (GPIOKWD.readIndex wPayload 9))) ∧
    (wNotification.endIndex = 100 ∧
      wNotification.beginIndex =
        sub64 100 (sub64 (XMOSKWD.readIndex wPayload 1) (XMOSKWD.readIndex wPayload 9))) :=
  ⟨(C2_published_indices 100 100 0 wEvent wPayload wNotification).1 (by decide),
   (C2_published_indices 100 100 0 wEvent wPayload wNotification).2 (by decide)⟩

/-! ## C3 — index-translation arithmetic -/

/-- C3, counterexample: under the `uint64_t` arithmetic the code uses,
`hostBeginIndex <= hostCurrentIndex` fails: with hostCurrentIndex = 0,
deviceCurrentIndex = 1, deviceBeginIndex = 0, the subtraction wraps to
`2 ^ 64 - 1 > 0`. -/
theorem C3_counterexample : ¬ begin_server_index 0 1 0 ≤ 0 := by decide

/-- C3, amended: whenever the inputs are in the `uint64_t` range,
`deviceBeginIndex <= deviceCurrentIndex`, and the device delta does not exceed
`hostCurrentIndex` (no wraparound), the computed `hostBeginIndex` equals
`hostCurrentIndex - (deviceCurrentIndex - deviceBeginIndex)` exactly and is at
most `hostCurrentIndex`. -/
theorem C3_translation_no_wrap :
    ∀ (current_index current_device_index begin_device_index : ℕ),
      current_index < 2 ^ 64 →
      current_device_index < 2 ^ 64 →
      begin_device_index ≤ current_device_index →
      current_device_index - begin_device_index ≤ current_index →
      begin_server_index current_index current_device_index begin_device_index =
          current_index - (current_device_index - begin_device_index) ∧
        begin_server_index current_index current_device_index begin_device_index ≤
          current_index := by
  intro h c b h1 h2 h3 h4
  unfold begin_server_index sub64
  omega

/-- C3, witness: at (10, 4, 1) the translation yields 7 = 10 - (4 - 1) ≤ 10. -/
theorem C3_witness :
    begin_server_index 10 4 1 = 10 - (4 - 1) ∧ begin_server_index 10 4 1 ≤ 10 :=
  C3_translation_no_wrap 10 4 1 (by decide) (by decide) (by decide) (by decide)

/-! ## C4 — creation-time audio-format validation -/

/-- C4, counterexample: not every detector-creation entry point rejects a
deviating format.  `GPIOKeywordDetector::create` of the `KWD/XMOS/GPIO` variant
performs no format-compatibility check: with a present stream, a little-endian
LPCM format at 8000 Hz, and successful init, it returns a (non-null)
detector. -/
theorem C4_counterexample : XMOSGPIOKWD.create true fmt8000 true = true := by decide

/-- C4, amended: the `KWD/GPIO`, `KWD/HID` and Sensory entry points return a
detector iff the stream is present, the format equals
{LPCM, little-endian, 16000 Hz, 16 bit, 1 channel}, and init succeeds — in
particular every 8000 Hz format is rejected; the `KWD/XMOS/GPIO` and
`KWD/XMOS/HID` entry points validate only stream presence and byte-swapping,
so they accept any little-endian format (8000 Hz included) whenever init
succeeds. -/
theorem C4_create_validation :
    ∀ (streamPresent initSucceeds : Bool) (f : AudioFormat),
      (f.sampleRateHz = 8000 →
        GPIOKWD.create streamPresent f initSucceeds = false ∧
        HIDKWD.create streamPresent f initSucceeds = false ∧
        SensoryKWD.create streamPresent f initSucceeds = false) ∧
      (GPIOKWD.create streamPresent f initSucceeds = true ↔
        streamPresent = true ∧ f = compatibleAudioFormat ∧ initSucceeds = true) ∧
      (HIDKWD.create streamPresent f initSucceeds = true ↔
        streamPresent = true ∧ f = compatibleAudioFormat ∧ initSucceeds = true) ∧
      (SensoryKWD.create streamPresent f initSucceeds = true ↔
        streamPresent = true ∧ f = compatibleAudioFormat ∧ initSucceeds = true) ∧
      (XMOSGPIOKWD.create streamPresent f initSucceeds = true ↔
        streamPresent = true ∧ isByteswappingRequired f = false ∧ initSucceeds = true) ∧
      (XMOSHIDKWD.create streamPresent f initSucceeds = true ↔
        streamPresent = true ∧ isByteswappingRequired f = false ∧ initSucceeds = true) := by
  intro s i f
  rcases f with ⟨enc, en, rate, bits, ch⟩
  cases s <;> cases i <;> cases enc <;> cases en <;>
    simp_all [GPIOKWD.create, GPIOKWD.isAudioFormatCompatibleWithGPIOKW,
      HIDKWD.create, HIDKWD.isAudioFormatCompatibleWithHIDKW,
      SensoryKWD.create, SensoryKWD.isAudioFormatCompatibleWithSensory,
      XMOSGPIOKWD.create, XMOSHIDKWD.create,
      isByteswappingRequired, compatibleAudioFormat, AudioFormat.mk.injEq]
  all_goals omega

/-- C4, witness: at 8000 Hz the three validating entry points all reject. -/
theorem C4_witness :
    GPIOKWD.create true fmt8000 true = false ∧
    HIDKWD.create true fmt8000 true = false ∧
    SensoryKWD.create true fmt8000 true = false :=
  (C4_create_validation true true fmt8000).1 rfl

/-! ## C5 — GPIO edge firing -/

/-- C5, counterexample: the read sequence LOW, LOW, HIGH, LOW, LOW does not
cause exactly one firing.  `oldGpioValue` is initialized to `HIGH`, so the
very first LOW read already satisfies
`gpioValue == LOW && oldGpioValue == HIGH` and fires; the HIGH→LOW step fires
again, for a total of two. -/
theorem C5_counterexample :
    ¬ GPIOKWD.fireCount
        [GPIOKWD.LOW, GPIOKWD.LOW, GPIOKWD.HIGH, GPIOKWD.LOW, GPIOKWD.LOW] = 1 := by
  decide

/-- C5, amended: the loop fires exactly at the reads whose value is LOW and
whose predecessor in the sequence `oldGpioValue :: reads` is HIGH — one firing
per HIGH→LOW transition of that extended sequence.  Since `oldGpioValue`
starts at HIGH, an initial LOW read fires once, and the sequence
LOW, LOW, HIGH, LOW, LOW fires exactly twice; LOW reads following a LOW read
never fire. -/
theorem C5_fire_per_transition :
    (∀ (oldGpioValue : ℕ) (reads : List ℕ),
      GPIOKWD.fireCountFrom oldGpioValue reads =
        ((oldGpioValue :: reads).zip reads).countP fun p => GPIOKWD.gpioFires p.2 p.1) ∧
    GPIOKWD.fireCount [GPIOKWD.LOW, GPIOKWD.LOW, GPIOKWD.HIGH, GPIOKWD.LOW, GPIOKWD.LOW] = 2 ∧
    (∀ reads : List ℕ,
      (∀ v ∈ reads, v = GPIOKWD.LOW) → GPIOKWD.fireCountFrom GPIOKWD.LOW reads = 0) := by
  refine ⟨?_, by decide, ?_⟩
  · intro old reads
    induction reads generalizing old with
    | nil => rfl
    | cons v rest ih =>
        simp only [GPIOKWD.fireCountFrom, List.zip_cons_cons, List.countP_cons, ih v]
        omega
  · intro reads hall
    induction reads with
    | nil => rfl
    | cons v rest ih =>
        have hv : v = GPIOKWD.LOW := hall v (List.mem_cons_self v rest)
        subst hv
        have hrest : GPIOKWD.fireCountFrom GPIOKWD.LOW rest = 0 :=
          ih fun w hw => hall w (List.mem_cons_of_mem _ hw)
        have hlow : GPIOKWD.gpioFires GPIOKWD.LOW GPIOKWD.LOW = false := by decide
        simp [GPIOKWD.fireCountFrom, hlow, hrest]

/-- C5, witness: two LOW reads after a LOW state never fire. -/
theorem C5_witness : GPIOKWD.fireCountFrom GPIOKWD.LOW [GPIOKWD.LOW, GPIOKWD.LOW] = 0 :=
  C5_fire_per_transition.2.2 [GPIOKWD.LOW, GPIOKWD.LOW] (by decide)

/-! ## C6 — HID trigger condition -/

/-- C6: both HID detection-loop variants fire exactly when the event read
succeeded (rc = 0), its type resolves to the key-event name, its code resolves
to the configured trigger key `HID_KEY_CODE` (KEY_T), and its value is 1
(key-down); in particular a key-up (value 0), a key-repeat (value 2), or any
other key code never fires. -/
theorem C6_hid_fire_iff :
    ∀ (rc : Int) (ev : InputEvent) (tellLoopTop tellAtTrigger : ℕ) (payload : ℕ → Byte),
      ((HIDKWD.detectionIteration tellLoopTop tellAtTrigger rc ev payload).isSome ↔
        rc = 0 ∧ ev.typeName = "EV_KEY" ∧ ev.codeName = HID_KEY_CODE ∧ ev.value = 1) ∧
      ((XMOSHIDKWD.detectionIteration tellLoopTop rc ev payload).isSome ↔
        rc = 0 ∧ ev.typeName = "EV_KEY" ∧ ev.codeName = HID_KEY_CODE ∧ ev.value = 1) := by
  intro rc ev t1 t2 payload
  have hfire : HIDKWD.eventFires rc ev = true ↔
      (rc = 0 ∧ ev.typeName = "EV_KEY" ∧ ev.codeName = HID_KEY_CODE ∧ ev.value = 1) := by
    simp [HIDKWD.eventFires, Bool.and_eq_true, beq_iff_eq, and_assoc]
  constructor
  · rw [← hfire, HIDKWD.detectionIteration]
    split <;> simp_all
  · rw [← hfire, XMOSHIDKWD.detectionIteration]
    split <;> simp_all

/-! ## C7 — control-transaction retry loop -/

/-- C7: whenever the status-byte retry loop returns a payload, that payload's
status byte is 0; and for every sequence of device responses the loop's result
is exactly the first response with status 0 — every earlier (nonzero-status)
response triggers an immediate further transaction, with no backoff state and
no bound on the number of retries (the recursion consumes arbitrarily long
response sequences, returning `none` only when the whole finite trace is
exhausted, i.e. the loop is still retrying). -/
theorem C7_status_zero :
    (∀ (responses : List (ℕ → Byte)) (payload : ℕ → Byte),
      controlRetryLoop responses = some payload → payload 0 = 0) ∧
    (∀ responses : List (ℕ → Byte),
      controlRetryLoop responses = responses.find? fun payload => payload 0 == 0) := by
  constructor
  · intro rs
    induction rs with
    | nil => intro p h; cases h
    | cons q rest ih =>
        intro p h
        rw [controlRetryLoop] at h
        split at h
        · cases h
          assumption
        · exact ih p h
  · intro rs
    induction rs with
    | nil => rfl
    | cons q rest ih =>
        rw [controlRetryLoop]
        by_cases h : q 0 = 0
        · have hb : (q 0 == 0) = true := by simpa using h
          simp [h, List.find?, hb]
        · have hb : (q 0 == 0) = false := by simpa using h
          simp [h, List.find?, hb, ih]

/-- C7, witness: after one busy response, the loop accepts the zero-status
response. -/
theorem C7_witness :
    controlRetryLoop [wBusyResponse, wGoodResponse] = some wGoodResponse ∧
      wGoodResponse 0 = 0 :=
  ⟨rfl, C7_status_zero.1 [wBusyResponse, wGoodResponse] wGoodResponse rfl⟩

/-! ## C8 — re-anchoring after overrun -/

/-- The Sensory detection loop splits around an overrun event: the part after
the overrun runs with the post-overrun `tell()` value as its anchor (provided
the loop did not already break on a fatal error). -/
theorem detectionRun_append_overrun (t : ℕ) (evs2 : List SensoryEvent) :
    ∀ (a0 : ℕ) (evs1 : List SensoryEvent), SensoryEvent.fatalError ∉ evs1 →
      SensoryKWD.detectionRun a0 (evs1 ++ SensoryEvent.overrun t :: evs2) =
        SensoryKWD.detectionRun a0 evs1 ++ SensoryKWD.detectionRun t evs2 := by
  intro a0 evs1
  induction evs1 generalizing a0 with
  | nil => intro _; simp [SensoryKWD.detectionRun]
  | cons e rest ih =>
      intro h1
      have hrest : SensoryEvent.fatalError ∉ rest := fun h => h1 (List.mem_cons_of_mem _ h)
      cases e with
      | readOk => simpa [SensoryKWD.detectionRun] using ih a0 hrest
      | overrun u => simpa [SensoryKWD.detectionRun] using ih u hrest
      | fatalError => exact absurd (List.mem_cons_self _ _) h1
      | detect => simp [SensoryKWD.detectionRun, ih a0 hrest]

/-- In a stretch of the Sensory detection loop with anchor `t` and no further
overrun, every published notification is the callback's output at `t`: it is
computed from the anchor `t` and from no other cursor value. -/
theorem detectionRun_anchored (t : ℕ) :
    ∀ evs : List SensoryEvent, (∀ u : ℕ, SensoryEvent.overrun u ∉ evs) →
      ∀ n ∈ SensoryKWD.detectionRun t evs, n = SensoryKWD.keyWordDetectedCallback t := by
  intro evs
  induction evs with
  | nil => intro _ n hn; cases hn
  | cons e rest ih =>
      intro h2
      have hrest : ∀ u : ℕ, SensoryEvent.overrun u ∉ rest :=
        fun u h => h2 u (List.mem_cons_of_mem _ h)
      cases e with
      | readOk => simpa [SensoryKWD.detectionRun] using ih hrest
      | overrun u => exact absurd (List.mem_cons_self _ _) (h2 u)
      | fatalError => intro n hn; cases hn
      | detect =>
          intro n hn
          rcases List.mem_cons.mp hn with hcb | hmem
          · exact hcb
          · exact ih hrest n hmem

/-- C8: once the detection loop observes an overrun (carrying the reader's
post-recovery `tell()` value `t`), the notifications published from that point
on (up to any further overrun) are exactly those of the loop re-anchored at
`t`: each one equals the callback's output at the post-overrun anchor `t`, and
none is computed from the pre-overrun anchor. -/
theorem C8_reanchor :
    ∀ (a0 : ℕ) (evs1 : List SensoryEvent) (t : ℕ) (evs2 : List SensoryEvent),
      SensoryEvent.fatalError ∉ evs1 →
      (∀ u : ℕ, SensoryEvent.overrun u ∉ evs2) →
      SensoryKWD.detectionRun a0 (evs1 ++ SensoryEvent.overrun t :: evs2) =
          SensoryKWD.detectionRun a0 evs1 ++ SensoryKWD.detectionRun t evs2 ∧
        ∀ n ∈ SensoryKWD.detectionRun t evs2, n = SensoryKWD.keyWordDetectedCallback t :=
  fun a0 evs1 t evs2 h1 h2 =>
    ⟨detectionRun_append_overrun t evs2 a0 evs1 h1, detectionRun_anchored t evs2 h2⟩

/-- C8, witness: anchor 5, an overrun re-anchoring to 17, one detection on each
side. -/
theorem C8_witness :
    SensoryKWD.detectionRun 5
        ([SensoryEvent.readOk, SensoryEvent.detect] ++
          SensoryEvent.overrun 17 :: [SensoryEvent.readOk, SensoryEvent.detect]) =
        SensoryKWD.detectionRun 5 [SensoryEvent.readOk, SensoryEvent.detect] ++
          SensoryKWD.detectionRun 17 [SensoryEvent.readOk, SensoryEvent.detect] ∧
      ∀ n ∈ SensoryKWD.detectionRun 17 [SensoryEvent.readOk, SensoryEvent.detect],
        n = SensoryKWD.keyWordDetectedCallback 17 :=
  C8_reanchor 5 [SensoryEvent.readOk, SensoryEvent.detect] 17
    [SensoryEvent.readOk, SensoryEvent.detect] (by decide) (by intro u; simp)

/-! ## C9 — shutdown on unrecoverable stream error -/

/-- Once the adapter drain loop's shutdown flag is set, it stays set. -/
theorem adapter_readAudioLoop_true (reads : List ReadResult) :
    AdapterXMOSKWD.readAudioLoop true reads = true := by
  cases reads <;> simp [AdapterXMOSKWD.readAudioLoop]

/-- C9: the `KWD/GPIO` (and identical `KWD/HID`) drain loop never sets
`m_isShuttingDown` — for every trace of read outcomes, including ones
reporting an unrecoverable stream error, the flag stays false and both loops
keep running; the `acsdkXMOSAdapter` drain loop, by contrast, sets the flag as
soon as a read reports `didErrorOccur`. -/
theorem C9_drain_loop_error :
    (∀ reads : List ReadResult, GPIOKWD.readAudioLoop false reads = false) ∧
    (∀ rest : List ReadResult,
      AdapterXMOSKWD.readAudioLoop false (ReadResult.error :: rest) = true) := by
  constructor
  · intro reads
    induction reads with
    | nil => rfl
    | cons r rest ih => simp [GPIOKWD.readAudioLoop, ih]
  · intro rest
    simp [AdapterXMOSKWD.readAudioLoop, didErrorOccur, adapter_readAudioLoop_true]

/-! ## C10 — Sensory callback publishes a zero-length detection -/

/-- C10, counterexample: the published indices do not equal
`m_beginIndexOfStreamReader` on every invocation.  The additions
`m_beginIndexOfStreamReader + begin` are `double` arithmetic, so the `uint64_t`
anchor is rounded to 53-bit precision first: at anchor `2 ^ 53 + 1` the
callback publishes `2 ^ 53`, not `2 ^ 53 + 1`. -/
theorem C10_counterexample :
    SensoryKWD.keyWordDetectedCallback (2 ^ 53 + 1) ≠
      { keyword := "", beginIndex := 2 ^ 53 + 1, endIndex := 2 ^ 53 + 1 } := by
  decide

/-- C10, amended: every invocation of the Sensory keyword-detected callback
publishes the empty keyword with both indices equal to the `double` rounding
of `m_beginIndexOfStreamReader` — the engine-querying calls are commented out,
so the locals keep their initial values `""`, 0 and 0, and the addends 0 are
exact.  Whenever the anchor is below `2 ^ 53` (where the `uint64`-to-`double`
conversion is exact) both indices equal `m_beginIndexOfStreamReader` itself. -/
theorem C10_callback_emission :
    ∀ m_beginIndexOfStreamReader : ℕ,
      SensoryKWD.keyWordDetectedCallback m_beginIndexOfStreamReader =
          { keyword := "",
            beginIndex := roundUInt64ToDouble m_beginIndexOfStreamReader,
            endIndex := roundUInt64ToDouble m_beginIndexOfStreamReader } ∧
        (m_beginIndexOfStreamReader < 2 ^ 53 →
          SensoryKWD.keyWordDetectedCallback m_beginIndexOfStreamReader =
            { keyword := "",
              beginIndex := m_beginIndexOfStreamReader,
              endIndex := m_beginIndexOfStreamReader }) := by
  intro a
  constructor
  · simp [SensoryKWD.keyWordDetectedCallback]
  · intro h
    have hexact : roundUInt64ToDouble a = a := by
      rw [roundUInt64ToDouble, if_pos h]
    simp [SensoryKWD.keyWordDetectedCallback, hexact]

/-- C10, witness: at anchor 42 (below `2 ^ 53`) the callback publishes
`("", 42, 42)`. -/
theorem C10_witness :
    SensoryKWD.keyWordDetectedCallback 42 =
      { keyword := "", beginIndex := 42, endIndex := 42 } :=
  (C10_callback_emission 42).2 (by decide)
